import Mathlib

/-!
Shallow embedding of the session lifecycle and event-normalization layer of
the TangentAd web SDK (`packages/web/src/session.ts`, class
`AvatarSessionManager`, together with the string constants of
`constants.ts`).

Modelling conventions:
* The LiveKit `Room` is an external transport; it is modelled as an opaque
  handle carrying an identity (`roomId`, standing for JS object identity),
  its connection state, and its `canPlaybackAudio` property.  Outcomes of
  transport operations (`room.connect`, `publishData`, `startAudio`,
  teardown) are parameters of the corresponding SDK operations, and every
  call issued to the transport is recorded in a trace (`TransportCall`).
* Each public method of `AvatarSessionManager`, and each room-event callback
  installed by `setupRoomEventHandlers`, becomes a function from the manager
  state (plus the transport outcome parameters) to an `OpResult`: the new
  manager state, the transport calls issued, the `emitEvent` calls performed
  (with the handler invocations they caused), and the error raised to the
  caller, if any (`none` models normal return; exceptions caught inside the
  method never reach this field).
* A registered JS handler (`Function`) is modelled as a `Handler` value: an
  identity (`hid`, standing for reference identity, as compared by
  `Array.prototype.indexOf`) plus its behaviour when invoked (`throws`).
* `JSON.parse(new TextDecoder().decode(payload))` and the subsequent field
  accesses run inside one `try`; the outcome of that external decode is a
  parameter (`DecodedPayload`): either some throw occurred (`failure`), or
  an object with the accessed fields was produced.
* JS string falsiness for the `liveKitToken` / `liveKitUrl` fields (typed
  `string`) is the empty string.
-/

namespace TangentSdk

/-- `AvatarSession` (from `types.ts`), restricted to the fields the session
manager reads. -/
structure AvatarSession where
  id : String
  sessionId : String
  liveKitToken : String
  liveKitUrl : String
  deriving Repr, DecidableEq

/-- Connection state of the transport room (LiveKit `ConnectionState`). -/
inductive RoomConnState where
  | connected
  | connecting
  | disconnected
  | reconnecting
  deriving Repr, DecidableEq

/-- Opaque transport handle: the LiveKit `Room`.  `roomId` stands for the JS
object identity of the handle. -/
structure Room where
  roomId : Nat
  state : RoomConnState
  canPlaybackAudio : Bool
  deriving Repr, DecidableEq

/-- A registered event handler: `hid` stands for the JS function reference
identity; `throws` is its behaviour when invoked. -/
structure Handler where
  hid : Nat
  throws : Bool
  deriving Repr, DecidableEq

/-- The `data` argument passed to `emitEvent` at each call site. -/
inductive EventPayload where
  | sessionRef (s : AvatarSession)
  | trackMsg (kind : String) (participant : Nat)
  | statusMsg (status : Option String) (text : Option String) (participant : Nat)
  | inputMsg (text : Option String) (inputType : Option String) (participant : Nat)
  | responseMsg (text : Option String) (participant : Nat)
  | errorMsg (text : Option String) (participant : Nat)
  | qualityMsg (quality : String) (participant : Nat)
  deriving Repr, DecidableEq

/-- The `SessionEventData` envelope built by `emitEvent` (from `types.ts`). -/
structure SessionEventData where
  type : String
  session : AvatarSession
  timestamp : String
  data : EventPayload
  deriving Repr, DecidableEq

/-- One handler invocation performed by `emitEvent`: which handler, the
envelope it received, and whether it threw (the throw is caught inside
`emitEvent` and logged). -/
structure HandlerCall where
  hid : Nat
  arg : SessionEventData
  threw : Bool
  deriving Repr, DecidableEq

/-- One `emitEvent(type, data)` call, with the handler invocations it made
(empty when no handler list is registered for `type`). -/
structure EmitRecord where
  eventType : String
  payload : EventPayload
  invoked : List HandlerCall
  deriving Repr, DecidableEq

/-- The mutable fields of an `AvatarSessionManager` instance. -/
structure ManagerState where
  room : Option Room
  session : AvatarSession
  eventHandlers : List (String × List Handler)
  audioPlaybackBlocked : Bool
  deriving Repr, DecidableEq

/-- `new AvatarSessionManager(session)`. -/
def mkManager (session : AvatarSession) : ManagerState :=
  { room := none, session := session, eventHandlers := [], audioPlaybackBlocked := false }

/-- The SDK error taxonomy (`ConnectionError`, `SessionError` from
`types.ts`), carrying the constructed message. -/
inductive SdkError where
  | connectionError (message : String)
  | sessionError (message : String)
  deriving Repr, DecidableEq

/-- A call issued to the transport.  `roomDisconnect`'s `failed` flag records
the outcome of the (un-awaited) teardown; the SDK discards it. -/
inductive TransportCall where
  | roomConnect (roomId : Nat) (url : String) (token : String)
  | roomDisconnect (roomId : Nat) (failed : Bool)
  | publishData (roomId : Nat) (bytes : List Nat) (reliable : Bool)
  | startAudio (roomId : Nat)
  deriving Repr, DecidableEq

/-- Result of one SDK operation: final manager state, transport calls issued,
`emitEvent` calls performed, and the error propagated to the caller. -/
structure OpResult where
  state : ManagerState
  calls : List TransportCall
  emits : List EmitRecord
  error : Option SdkError
  deriving Repr, DecidableEq

/-! ### String constants (`constants.ts`) -/

namespace SESSION_EVENTS

def STARTED : String := "session.started"

def ENDED : String := "session.ended"

def ERROR : String := "session.error"

end SESSION_EVENTS

namespace AVATAR_EVENTS

def VIDEO : String := "avatar.video"

def AUDIO : String := "avatar.audio"

def STATUS : String := "avatar.status"

def INPUT : String := "avatar.input"

def RESPONSE : String := "avatar.response"

def ERROR : String := "avatar.error"

end AVATAR_EVENTS

namespace MESSAGE_TYPES

def STATUS : String := "status"

def INPUT : String := "input"

def RESPONSE : String := "response"

def ERROR : String := "error"

end MESSAGE_TYPES

namespace CONNECTION_EVENTS

def QUALITY : String := "connection.quality"

end CONNECTION_EVENTS

/-! ### The handler map (a JS `Map<string, Function[]>`) -/

/-- `Map.prototype.get`, on the insertion-ordered association list. -/
def mapGet : List (String × List Handler) → String → Option (List Handler)
  | [], _ => none
  | (k2, v) :: rest, k => if k2 = k then some v else mapGet rest k

/-- The `on` body `if (!has(event)) set(event, []); get(event)!.push(handler)`
as one operation: append `h` to the list stored at `k`, creating the entry
(at the end, in `Map` insertion order) when absent. -/
def mapPush : List (String × List Handler) → String → Handler → List (String × List Handler)
  | [], k, h => [(k, [h])]
  | (k2, v) :: rest, k, h =>
    if k2 = k then (k2, v ++ [h]) :: rest else (k2, v) :: mapPush rest k h

/-- `handlers.splice(handlers.indexOf(handler), 1)` guarded by `index > -1`:
remove the first occurrence of `h`, if any. -/
def removeFirst : List Handler → Handler → List Handler
  | [], _ => []
  | x :: rest, h => if x = h then rest else x :: removeFirst rest h

/-- The `off` body: when an entry for `k` exists, remove the first occurrence
of `h` from it; otherwise do nothing. -/
def mapRemove : List (String × List Handler) → String → Handler → List (String × List Handler)
  | [], _, _ => []
  | (k2, v) :: rest, k, h =>
    if k2 = k then (k2, removeFirst v h) :: rest else (k2, v) :: mapRemove rest k h

/-- `AvatarSessionManager.on(event, handler)`. -/
def ManagerState.on (st : ManagerState) (event : String) (h : Handler) : ManagerState :=
  { st with eventHandlers := mapPush st.eventHandlers event h }

/-- `AvatarSessionManager.off(event, handler)`. -/
def ManagerState.off (st : ManagerState) (event : String) (h : Handler) : ManagerState :=
  { st with eventHandlers := mapRemove st.eventHandlers event h }

/-! ### Event emission (`emitEvent`) -/

/-- Invoking one JS handler: it either returns or throws. -/
def invokeHandler (h : Handler) (_ev : SessionEventData) : Except String Unit :=
  if h.throws then Except.error "handler exception" else Except.ok ()

/-- The `handlers.forEach` loop of `emitEvent`: each invocation is wrapped in
`try/catch`, so a throw is logged and the loop continues with the next
handler. -/
def runHandlers : List Handler → SessionEventData → List HandlerCall
  | [], _ => []
  | h :: rest, ev =>
    match invokeHandler h ev with
    | Except.ok _ => { hid := h.hid, arg := ev, threw := false } :: runHandlers rest ev
    | Except.error _ => { hid := h.hid, arg := ev, threw := true } :: runHandlers rest ev

/-- `AvatarSessionManager.emitEvent(type, data)`: look up the handler list;
when present, build one `SessionEventData` envelope (`timestamp` is the
current clock reading `now`) and invoke every handler with it; when absent,
do nothing.  It reads but never writes the manager state, and catches every
handler throw. -/
def emitEvent (st : ManagerState) (type : String) (d : EventPayload) (now : String) : EmitRecord :=
  match mapGet st.eventHandlers type with
  | none => { eventType := type, payload := d, invoked := [] }
  | some handlers =>
    let eventData : SessionEventData :=
      { type := type, session := st.session, timestamp := now, data := d }
    { eventType := type, payload := d, invoked := runHandlers handlers eventData }

/-! ### Outbound wire encoding (`sendMessage` payload) -/

/-- Lower-case hexadecimal digit, as produced by `JSON.stringify` escapes. -/
def hexDigit (n : Nat) : Char :=
  if n < 10 then Char.ofNat (48 + n) else Char.ofNat (87 + n)

/-- `JSON.stringify` escaping of one character of a string value. -/
def jsonEscapeChar (c : Char) : String :=
  if c = Char.ofNat 34 then "\\\""
  else if c = Char.ofNat 92 then "\\\\"
  else if c.toNat = 8 then "\\b"
  else if c.toNat = 9 then "\\t"
  else if c.toNat = 10 then "\\n"
  else if c.toNat = 12 then "\\f"
  else if c.toNat = 13 then "\\r"
  else if c.toNat < 32 then
    "\\u00" ++ String.mk [hexDigit (c.toNat / 16), hexDigit (c.toNat % 16)]
  else String.mk [c]

/-- `JSON.stringify` of a string value. -/
def jsonQuote (s : String) : String :=
  "\"" ++ String.join (s.data.map jsonEscapeChar) ++ "\""

/-- `JSON.stringify({ type: MESSAGE_TYPES.INPUT, text: message })`: property
order is insertion order, no whitespace. -/
def jsonStringifyInputMessage (message : String) : String :=
  "\x7b\"type\":" ++ jsonQuote MESSAGE_TYPES.INPUT ++ ",\"text\":" ++ jsonQuote message ++ "\x7d"

/-- `new TextEncoder().encode(s)`: the UTF-8 bytes of `s`. -/
def utf8EncodeChar (c : Char) : List Nat :=
  let n := c.toNat
  if n < 128 then [n]
  else if n < 2048 then [192 + n / 64, 128 + n % 64]
  else if n < 65536 then [224 + n / 4096, 128 + (n / 64) % 64, 128 + n % 64]
  else [240 + n / 262144, 128 + (n / 4096) % 64, 128 + (n / 64) % 64, 128 + n % 64]

/-- `new TextEncoder().encode(s)`, over the whole string. -/
def textEncode (s : String) : List Nat :=
  (s.data.map utf8EncodeChar).flatten

/-! ### Public operations of `AvatarSessionManager` -/

/-- Outcome of the transport's `room.connect(url, token)` call: success, or a
throw (`errMessage = some m` for an `Error` with message `m`, `none` for a
non-`Error` value) leaving the new room in state `roomStateAfter`. -/
inductive ConnectOutcome where
  | success
  | failure (errMessage : Option String) (roomStateAfter : RoomConnState)
  deriving Repr, DecidableEq

/-- The `error instanceof Error ? error.message : "Unknown error"` pattern. -/
def caughtMessage : Option String → String
  | some m => m
  | none => "Unknown error"

/-- `AvatarSessionManager.connect()`.  `newRoomId` is the identity of the
`new Room()` allocated by the call; `outcome` is the transport's behaviour;
`now` is the clock reading used for event timestamps.  Note that `this.room`
is assigned before the transport connect is awaited and is not cleared in the
`catch` branch. -/
def connect (st : ManagerState) (outcome : ConnectOutcome) (newRoomId : Nat) (now : String) :
    OpResult :=
  if st.session.liveKitToken = "" ∨ st.session.liveKitUrl = "" then
    { state := st, calls := [], emits := [],
      error := some (SdkError.connectionError "LiveKit connection details not available") }
  else
    match outcome with
    | ConnectOutcome.success =>
      let st1 : ManagerState :=
        { st with room := some { roomId := newRoomId, state := RoomConnState.connected,
                                 canPlaybackAudio := true } }
      { state := st1,
        calls := [TransportCall.roomConnect newRoomId st.session.liveKitUrl
                    st.session.liveKitToken],
        emits := [emitEvent st1 SESSION_EVENTS.STARTED (EventPayload.sessionRef st1.session) now],
        error := none }
    | ConnectOutcome.failure errMessage after =>
      let st1 : ManagerState :=
        { st with room := some { roomId := newRoomId, state := after,
                                 canPlaybackAudio := true } }
      { state := st1,
        calls := [TransportCall.roomConnect newRoomId st.session.liveKitUrl
                    st.session.liveKitToken],
        emits := [],
        error := some (SdkError.connectionError
          ("Failed to connect to LiveKit: " ++ caughtMessage errMessage)) }

/-- `AvatarSessionManager.disconnect()`.  The transport teardown
`this.room.disconnect()` is issued without `await` and outside any `try`;
its result (`teardownFails`) is discarded.  The `session.ended` emission sits
after (outside) the `if (this.room)` guard. -/
def disconnect (st : ManagerState) (teardownFails : Bool) (now : String) : OpResult :=
  match st.room with
  | some r =>
    let st1 : ManagerState := { st with room := none }
    { state := st1,
      calls := [TransportCall.roomDisconnect r.roomId teardownFails],
      emits := [emitEvent st1 SESSION_EVENTS.ENDED (EventPayload.sessionRef st1.session) now],
      error := none }
  | none =>
    { state := st, calls := [],
      emits := [emitEvent st SESSION_EVENTS.ENDED (EventPayload.sessionRef st.session) now],
      error := none }

/-- `AvatarSessionManager.resumeAudio()`.  `startAudioFails` is the outcome of
the transport's `room.startAudio()`: on success the blocked flag is cleared;
a failure is caught and logged, the flag left unchanged, and nothing is
thrown outward. -/
def resumeAudio (st : ManagerState) (startAudioFails : Bool) : OpResult :=
  match st.room with
  | none =>
    { state := st, calls := [], emits := [],
      error := some (SdkError.sessionError "Not connected to session") }
  | some r =>
    if startAudioFails then
      { state := st, calls := [TransportCall.startAudio r.roomId], emits := [], error := none }
    else
      { state := { st with audioPlaybackBlocked := false },
        calls := [TransportCall.startAudio r.roomId], emits := [], error := none }

/-- Outcome of the transport's `publishData` call. -/
inductive PublishOutcome where
  | success
  | failure (errMessage : Option String)
  deriving Repr, DecidableEq

/-- `AvatarSessionManager.sendMessage(message)`.  When the blocked flag is
set, `resumeAudio()` runs first (it cannot throw here, the room being
present).  The payload is the UTF-8 bytes of
`JSON.stringify({ type: MESSAGE_TYPES.INPUT, text: message })`, published
with `{ reliable: true }`; a publish throw is rewrapped as a `SessionError`. -/
def sendMessage (st : ManagerState) (message : String) (startAudioFails : Bool)
    (pub : PublishOutcome) : OpResult :=
  match st.room with
  | none =>
    { state := st, calls := [], emits := [],
      error := some (SdkError.sessionError "Not connected to session") }
  | some r =>
    let resume : OpResult :=
      if st.audioPlaybackBlocked then resumeAudio st startAudioFails
      else { state := st, calls := [], emits := [], error := none }
    let pubCall : TransportCall :=
      TransportCall.publishData r.roomId (textEncode (jsonStringifyInputMessage message)) true
    match pub with
    | PublishOutcome.success =>
      { state := resume.state, calls := resume.calls ++ [pubCall], emits := [], error := none }
    | PublishOutcome.failure errMessage =>
      { state := resume.state, calls := resume.calls ++ [pubCall], emits := [],
        error := some (SdkError.sessionError
          ("Failed to send message: " ++ caughtMessage errMessage)) }

/-- `AvatarSessionManager.getStatus()`: a read-only projection of the current
room state. -/
def getStatus (st : ManagerState) : String :=
  match st.room with
  | none => "disconnected"
  | some r =>
    match r.state with
    | RoomConnState.connected => "connected"
    | RoomConnState.connecting => "connecting"
    | RoomConnState.disconnected => "disconnected"
    | RoomConnState.reconnecting => "error"

/-- `AvatarSessionManager.isAudioBlocked()`. -/
def isAudioBlocked (st : ManagerState) : Bool :=
  st.audioPlaybackBlocked

/-! ### Room-event callbacks installed by `setupRoomEventHandlers` -/

/-- Outcome of `JSON.parse(new TextDecoder().decode(payload))` together with
the subsequent property accesses, all inside one `try`: either some step
threw (`failure`), or an object with the read fields was produced (a missing
field reads as `none`, i.e. `undefined`). -/
inductive DecodedPayload where
  | failure
  | object (type : Option String) (status : Option String) (text : Option String)
      (inputType : Option String)
  deriving Repr, DecidableEq

/-- The `type` discriminator the callback dispatches on. -/
def DecodedPayload.typeField : DecodedPayload → Option String
  | DecodedPayload.failure => none
  | DecodedPayload.object ty _ _ _ => ty

/-- The `RoomEvent.DataReceived` callback: on decode failure, log a warning
and drop the payload; on success, dispatch on the `type` field by strict
equality against the four `MESSAGE_TYPES`; any other value falls through
every branch and is ignored. -/
def onDataReceived (st : ManagerState) (d : DecodedPayload) (participant : Nat) (now : String) :
    OpResult :=
  match d with
  | DecodedPayload.failure =>
    { state := st, calls := [], emits := [], error := none }
  | DecodedPayload.object ty status text inputType =>
    if ty = some MESSAGE_TYPES.STATUS then
      { state := st, calls := [],
        emits := [emitEvent st AVATAR_EVENTS.STATUS
          (EventPayload.statusMsg status text participant) now],
        error := none }
    else if ty = some MESSAGE_TYPES.INPUT then
      { state := st, calls := [],
        emits := [emitEvent st AVATAR_EVENTS.INPUT
          (EventPayload.inputMsg text inputType participant) now],
        error := none }
    else if ty = some MESSAGE_TYPES.RESPONSE then
      { state := st, calls := [],
        emits := [emitEvent st AVATAR_EVENTS.RESPONSE
          (EventPayload.responseMsg text participant) now],
        error := none }
    else if ty = some MESSAGE_TYPES.ERROR then
      { state := st, calls := [],
        emits := [emitEvent st AVATAR_EVENTS.ERROR
          (EventPayload.errorMsg text participant) now],
        error := none }
    else
      { state := st, calls := [], emits := [], error := none }

/-- The `RoomEvent.Disconnected` callback: emits `session.ended` (and touches
nothing else). -/
def onRoomDisconnected (st : ManagerState) (now : String) : OpResult :=
  { state := st, calls := [],
    emits := [emitEvent st SESSION_EVENTS.ENDED (EventPayload.sessionRef st.session) now],
    error := none }

/-- The `RoomEvent.AudioPlaybackStatusChanged` callback: the transport has
updated the room's `canPlaybackAudio` to `canPlayNow`; the callback reads
`this.room?.canPlaybackAudio ?? false` and stores its negation in
`audioPlaybackBlocked`. -/
def onAudioPlaybackStatusChanged (st : ManagerState) (canPlayNow : Bool) : ManagerState :=
  let st1 : ManagerState :=
    match st.room with
    | some r => { st with room := some { r with canPlaybackAudio := canPlayNow } }
    | none => st
  let canPlay : Bool :=
    match st1.room with
    | some r => r.canPlaybackAudio
    | none => false
  { st1 with audioPlaybackBlocked := !canPlay }

/-! ### Trace helpers -/

/-- Number of `session.ended` emissions in a trace. -/
def endedEmitCount (rs : List EmitRecord) : Nat :=
  (rs.filter (fun e => e.eventType == SESSION_EVENTS.ENDED)).length

/-- Whether a transport call is a `publishData`. -/
def isPublish : TransportCall → Bool
  | TransportCall.publishData _ _ _ => true
  | _ => false

/-- Whether a transport call is a teardown of a room handle. -/
def isRoomDisconnect : TransportCall → Bool
  | TransportCall.roomDisconnect _ _ => true
  | _ => false

/-! ### Concrete fixtures -/

/-- A concrete `AvatarSession` with connection details present. -/
def sampleSession : AvatarSession :=
  { id := "sess-1", sessionId := "sid-1", liveKitToken := "tok123",
    liveKitUrl := "wss://example/room" }

/-! ### Helper lemmas -/

theorem emitEvent_eventType (st : ManagerState) (t : String) (d : EventPayload) (now : String) :
    (emitEvent st t d now).eventType = t := by
  unfold emitEvent
  cases mapGet st.eventHandlers t <;> rfl

theorem runHandlers_eq_map (hs : List Handler) (ev : SessionEventData) :
    runHandlers hs ev = hs.map (fun h => { hid := h.hid, arg := ev, threw := h.throws }) := by
  induction hs with
  | nil => rfl
  | cons h rest ih =>
    cases hth : h.throws <;> simp [runHandlers, invokeHandler, hth, ih]

theorem mapGet_mapPush_self (m : List (String × List Handler)) (k : String) (h : Handler) :
    mapGet (mapPush m k h) k = some (((mapGet m k).getD []) ++ [h]) := by
  induction m with
  | nil => simp [mapPush, mapGet]
  | cons p rest ih =>
    obtain ⟨k2, v⟩ := p
    by_cases hk : k2 = k
    · subst hk
      simp [mapPush, mapGet]
    · simp [mapPush, mapGet, hk, ih]

theorem mapGet_mapRemove_self (m : List (String × List Handler)) (k : String) (h : Handler) :
    mapGet (mapRemove m k h) k = (mapGet m k).map (fun v => removeFirst v h) := by
  induction m with
  | nil => simp [mapRemove, mapGet]
  | cons p rest ih =>
    obtain ⟨k2, v⟩ := p
    by_cases hk : k2 = k
    · subst hk
      simp [mapRemove, mapGet]
    · simp [mapRemove, mapGet, hk, ih]

/-! ### Claim C1 -/

/-- State for the C1 run: connected manager with one handler registered for
`session.ended`. -/
def c1State : ManagerState :=
  { room := some { roomId := 1, state := RoomConnState.connected, canPlaybackAudio := true },
    session := sampleSession,
    eventHandlers := [(SESSION_EVENTS.ENDED, [{ hid := 0, throws := false }])],
    audioPlaybackBlocked := false }

/-- Claim C1, counterexample: two consecutive `disconnect()` calls emit
`session.ended` twice, not once; the second (redundant) call, made while
already disconnected, still emits `session.ended` and still invokes the
registered handler. -/
theorem c1_disconnect_twice_cex :
    endedEmitCount ((disconnect c1State false "t1").emits
        ++ (disconnect (disconnect c1State false "t1").state false "t2").emits) = 2 ∧
    endedEmitCount ((disconnect c1State false "t1").emits
        ++ (disconnect (disconnect c1State false "t1").state false "t2").emits) ≠ 1 ∧
    (disconnect c1State false "t1").state.room = none ∧
    ((disconnect (disconnect c1State false "t1").state false "t2").emits.map
        (fun e => e.invoked.map HandlerCall.hid)) = [[0]] := by
  decide

/-- Claim C1, amended: `disconnect()` emits `session.ended` on every call —
the emission sits outside the `if (this.room)` guard — so each of two
consecutive calls emits it once (twice in total), and a redundant disconnect
while already disconnected still emits it. -/
theorem c1_disconnect_emits_ended_every_call (st : ManagerState) (teardownFails : Bool)
    (now : String) :
    endedEmitCount (disconnect st teardownFails now).emits = 1 := by
  cases h : st.room <;>
    simp [disconnect, h, endedEmitCount, List.filter, emitEvent_eventType]

/-- Witness for the amended C1 theorem, at a disconnected manager: the
redundant call still emits `session.ended` once. -/
theorem c1_disconnect_emits_ended_every_call_witness :
    endedEmitCount (disconnect (mkManager sampleSession) false "t").emits = 1 :=
  c1_disconnect_emits_ended_every_call (mkManager sampleSession) false "t"

/-! ### Claim C2 -/

/-- Claim C2, counterexample: on a transport connect failure, `connect()`
raises the `ConnectionError` with the cause message, but the `room` field is
NOT absent — the `catch` branch never clears the handle assigned before the
`await`. -/
theorem c2_connect_failure_cex :
    (connect (mkManager sampleSession)
        (ConnectOutcome.failure (some "boom") RoomConnState.disconnected) 1 "t").error
      = some (SdkError.connectionError "Failed to connect to LiveKit: boom") ∧
    (connect (mkManager sampleSession)
        (ConnectOutcome.failure (some "boom") RoomConnState.disconnected) 1 "t").state.room
      ≠ none := by
  decide

/-- Claim C2, amended: when the transport connect fails, `connect()` raises a
`ConnectionError` carrying the proximate cause message, but the manager
retains the freshly created transport handle in `room` (it is not cleared);
`getStatus()` then projects that handle's transport state, so it reports
"disconnected" when the transport leaves the failed room disconnected. -/
theorem c2_connect_failure_raises_but_keeps_room (st : ManagerState) (errMessage : Option String)
    (after : RoomConnState) (newRoomId : Nat) (now : String)
    (htok : st.session.liveKitToken ≠ "") (hurl : st.session.liveKitUrl ≠ "") :
    (connect st (ConnectOutcome.failure errMessage after) newRoomId now).error
      = some (SdkError.connectionError
          ("Failed to connect to LiveKit: " ++ caughtMessage errMessage)) ∧
    (connect st (ConnectOutcome.failure errMessage after) newRoomId now).state.room
      = some { roomId := newRoomId, state := after, canPlaybackAudio := true } ∧
    (after = RoomConnState.disconnected →
      getStatus (connect st (ConnectOutcome.failure errMessage after) newRoomId now).state
        = "disconnected") := by
  refine ⟨?_, ?_, ?_⟩ <;> simp [connect, htok, hurl]
  intro ha
  subst ha
  simp [getStatus]

/-- Witness for the amended C2 theorem at a concrete failing connect. -/
theorem c2_connect_failure_raises_but_keeps_room_witness :
    (connect (mkManager sampleSession)
        (ConnectOutcome.failure (some "boom") RoomConnState.disconnected) 1 "t").error
      = some (SdkError.connectionError
          ("Failed to connect to LiveKit: " ++ caughtMessage (some "boom"))) ∧
    (connect (mkManager sampleSession)
        (ConnectOutcome.failure (some "boom") RoomConnState.disconnected) 1 "t").state.room
      = some { roomId := 1, state := RoomConnState.disconnected, canPlaybackAudio := true } ∧
    (RoomConnState.disconnected = RoomConnState.disconnected →
      getStatus (connect (mkManager sampleSession)
          (ConnectOutcome.failure (some "boom") RoomConnState.disconnected) 1 "t").state
        = "disconnected") :=
  c2_connect_failure_raises_but_keeps_room (mkManager sampleSession) (some "boom")
    RoomConnState.disconnected 1 "t" (by decide) (by decide)

/-! ### Claim C3 -/

/-- C3 run, step 1: successful first connect. -/
def c3Step1 : OpResult := connect (mkManager sampleSession) ConnectOutcome.success 1 "t1"

/-- C3 run, step 2: the transport reports playback blocked, setting the flag. -/
def c3Step2 : ManagerState := onAudioPlaybackStatusChanged c3Step1.state false

/-- C3 run, step 3: explicit disconnect ends the first generation. -/
def c3Step3 : OpResult := disconnect c3Step2 false "t2"

/-- C3 run, step 4: a fresh successful connect in a new generation. -/
def c3Step4 : OpResult := connect c3Step3.state ConnectOutcome.success 2 "t3"

/-- Claim C3, counterexample: the flag became true in the first generation,
and after a later successful `connect()` the manager still reports
`isAudioBlocked() = true` — `connect()` never resets `audioPlaybackBlocked`. -/
theorem c3_audio_flag_survives_reconnect_cex :
    isAudioBlocked c3Step2 = true ∧
    c3Step4.error = none ∧
    isAudioBlocked c3Step4.state = true := by
  decide

/-- Claim C3, amended: establishing a new connection does not reset
`audioPlaybackBlocked` — `connect()` leaves the flag exactly as it was, on
every path (missing connection details, transport success, transport
failure); the flag changes only via an `AudioPlaybackStatusChanged`
notification or a successful `resumeAudio()`. -/
theorem c3_connect_preserves_audio_flag (st : ManagerState) (outcome : ConnectOutcome)
    (newRoomId : Nat) (now : String) :
    (connect st outcome newRoomId now).state.audioPlaybackBlocked = st.audioPlaybackBlocked := by
  unfold connect
  split
  · rfl
  · cases outcome <;> rfl

/-! ### Claim C4 -/

/-- Claim C4, confirmed: `disconnect()` always succeeds — for every manager
state and every outcome of the (un-awaited, fire-and-forget) transport
teardown, it reports no error to its caller and leaves the handle cleared;
the teardown outcome is discarded, and handler throws during the
`session.ended` emission are caught inside `emitEvent`. -/
theorem c4_disconnect_never_raises (st : ManagerState) (teardownFails : Bool) (now : String) :
    (disconnect st teardownFails now).error = none ∧
    (disconnect st teardownFails now).state.room = none := by
  cases h : st.room <;> simp [disconnect, h]

/-! ### Claim C5 -/

/-- Claim C5, confirmed: the `DataReceived` callback is total and pure with
respect to the connection — for every manager state and every decode outcome
it raises nothing, issues no transport call, and leaves the state untouched;
moreover it emits a domain event only when the decoded object's `type`
discriminator is one of the four `MESSAGE_TYPES`, so a decode failure or an
unknown/missing `type` produces no event at all. -/
theorem c5_data_received_total (st : ManagerState) (d : DecodedPayload) (participant : Nat)
    (now : String) :
    (onDataReceived st d participant now).error = none ∧
    (onDataReceived st d participant now).state = st ∧
    (onDataReceived st d participant now).calls = [] ∧
    ((onDataReceived st d participant now).emits = [] ∨
      ∃ ty, d.typeField = some ty ∧
        (ty = MESSAGE_TYPES.STATUS ∨ ty = MESSAGE_TYPES.INPUT ∨
         ty = MESSAGE_TYPES.RESPONSE ∨ ty = MESSAGE_TYPES.ERROR)) := by
  have hproj : (onDataReceived st d participant now).error = none ∧
      (onDataReceived st d participant now).state = st ∧
      (onDataReceived st d participant now).calls = [] := by
    cases d with
    | failure => simp [onDataReceived]
    | object ty status text inputType =>
      simp only [onDataReceived]
      split_ifs <;> simp
  refine ⟨hproj.1, hproj.2.1, hproj.2.2, ?_⟩
  cases d with
  | failure => exact Or.inl (by simp [onDataReceived])
  | object ty status text inputType =>
    by_cases h1 : ty = some MESSAGE_TYPES.STATUS
    · exact Or.inr ⟨MESSAGE_TYPES.STATUS, by simp [DecodedPayload.typeField, h1], Or.inl rfl⟩
    by_cases h2 : ty = some MESSAGE_TYPES.INPUT
    · exact Or.inr ⟨MESSAGE_TYPES.INPUT, by simp [DecodedPayload.typeField, h2],
        Or.inr (Or.inl rfl)⟩
    by_cases h3 : ty = some MESSAGE_TYPES.RESPONSE
    · exact Or.inr ⟨MESSAGE_TYPES.RESPONSE, by simp [DecodedPayload.typeField, h3],
        Or.inr (Or.inr (Or.inl rfl))⟩
    by_cases h4 : ty = some MESSAGE_TYPES.ERROR
    · exact Or.inr ⟨MESSAGE_TYPES.ERROR, by simp [DecodedPayload.typeField, h4],
        Or.inr (Or.inr (Or.inr rfl))⟩
    · exact Or.inl (by simp [onDataReceived, h1, h2, h3, h4])

/-! ### Claim C6 -/

/-- Claim C6, confirmed: one `emitEvent` call invokes exactly the handlers
registered for the kind, in registration order, every one of them receiving
the one shared `SessionEventData` envelope built for this emission; a
handler that throws is recorded (`threw`) and caught, and does not remove
any later handler from the invocation list; when no handler list is
registered the invocation list is empty (a no-op).  `emitEvent` returns no
error and, by construction, never writes the manager state. -/
theorem c6_emit_invokes_all_handlers_isolated (st : ManagerState) (k : String)
    (d : EventPayload) (now : String) :
    (emitEvent st k d now).invoked =
      ((mapGet st.eventHandlers k).getD []).map (fun h =>
        { hid := h.hid,
          arg := { type := k, session := st.session, timestamp := now, data := d },
          threw := h.throws }) := by
  cases h : mapGet st.eventHandlers k <;> simp [emitEvent, h, runHandlers_eq_map]

/-! ### Claim C7 -/

/-- Claim C7, confirmed: with no transport handle present, `sendMessage`
raises `SessionError ("Not connected to session")`, issues no transport call
(in particular no publish), emits nothing and changes nothing. -/
theorem c7_send_message_not_connected (st : ManagerState) (message : String)
    (startAudioFails : Bool) (pub : PublishOutcome) (h : st.room = none) :
    sendMessage st message startAudioFails pub =
      { state := st, calls := [], emits := [],
        error := some (SdkError.sessionError "Not connected to session") } := by
  simp [sendMessage, h]

/-- Witness for C7: a freshly constructed (never connected) manager. -/
theorem c7_send_message_not_connected_witness :
    sendMessage (mkManager sampleSession) "hi" false PublishOutcome.success =
      { state := mkManager sampleSession, calls := [], emits := [],
        error := some (SdkError.sessionError "Not connected to session") } :=
  c7_send_message_not_connected (mkManager sampleSession) "hi" false PublishOutcome.success rfl

/-! ### Claim C8 -/

/-- Claim C8, confirmed: with a transport handle present, `sendMessage m`
issues exactly one publish, on that handle, reliable, whose bytes are the
UTF-8 encoding of `JSON.stringify` of the object with `type: "input"` and
`text: m`; on transport success it returns without error, and a publish
throw carrying message `em` is surfaced as
`SessionError ("Failed to send message: " ++ em)`. -/
theorem c8_send_message_publishes_input_json (st : ManagerState) (r : Room) (m : String)
    (startAudioFails : Bool) (em : String) (h : st.room = some r) :
    (sendMessage st m startAudioFails PublishOutcome.success).error = none ∧
    (sendMessage st m startAudioFails PublishOutcome.success).calls.filter isPublish =
      [TransportCall.publishData r.roomId (textEncode (jsonStringifyInputMessage m)) true] ∧
    (sendMessage st m startAudioFails (PublishOutcome.failure (some em))).error =
      some (SdkError.sessionError ("Failed to send message: " ++ em)) ∧
    (sendMessage st m startAudioFails (PublishOutcome.failure (some em))).calls.filter isPublish =
      [TransportCall.publishData r.roomId (textEncode (jsonStringifyInputMessage m)) true] := by
  cases hb : st.audioPlaybackBlocked <;> cases startAudioFails <;>
    simp [sendMessage, h, hb, resumeAudio, isPublish, caughtMessage, List.filter_append]

/-- Connected manager state for the C8 witness. -/
def c8State : ManagerState :=
  { mkManager sampleSession with
    room := some { roomId := 1, state := RoomConnState.connected, canPlaybackAudio := true } }

/-- Witness for C8, at message "hi": the published bytes are exactly the
UTF-8 bytes of the 28 characters of the wire string with `type` "input" and
`text` "hi", and a failing publish surfaces the wrapped `SessionError`. -/
theorem c8_send_message_publishes_input_json_witness :
    textEncode (jsonStringifyInputMessage "hi") =
      [123, 34, 116, 121, 112, 101, 34, 58, 34, 105, 110, 112, 117, 116, 34, 44,
       34, 116, 101, 120, 116, 34, 58, 34, 104, 105, 34, 125] ∧
    (sendMessage c8State "hi" false PublishOutcome.success).error = none ∧
    (sendMessage c8State "hi" false PublishOutcome.success).calls.filter isPublish =
      [TransportCall.publishData 1 (textEncode (jsonStringifyInputMessage "hi")) true] ∧
    (sendMessage c8State "hi" false (PublishOutcome.failure (some "netdown"))).error =
      some (SdkError.sessionError ("Failed to send message: " ++ "netdown")) :=
  ⟨by decide,
   (c8_send_message_publishes_input_json c8State
      { roomId := 1, state := RoomConnState.connected, canPlaybackAudio := true }
      "hi" false "netdown" rfl).1,
   (c8_send_message_publishes_input_json c8State
      { roomId := 1, state := RoomConnState.connected, canPlaybackAudio := true }
      "hi" false "netdown" rfl).2.1,
   (c8_send_message_publishes_input_json c8State
      { roomId := 1, state := RoomConnState.connected, canPlaybackAudio := true }
      "hi" false "netdown" rfl).2.2.1⟩

/-! ### Claim C9 -/

/-- Claim C9, confirmed: calling `connect()` while a transport handle is
already stored creates a brand-new handle (identity `newRoomId`, distinct
from the old one) and overwrites `room` with it — the result no longer holds
the previous handle — while no teardown call is ever issued to the
transport, so the previous connection is abandoned still live. -/
theorem c9_reconnect_abandons_previous_room (st : ManagerState) (old : Room)
    (outcome : ConnectOutcome) (newRoomId : Nat) (now : String)
    (hroom : st.room = some old)
    (htok : st.session.liveKitToken ≠ "") (hurl : st.session.liveKitUrl ≠ "")
    (hnew : newRoomId ≠ old.roomId) :
    (connect st outcome newRoomId now).state.room.map Room.roomId = some newRoomId ∧
    (connect st outcome newRoomId now).state.room ≠ some old ∧
    (∀ c ∈ (connect st outcome newRoomId now).calls, isRoomDisconnect c = false) := by
  have hmapS : (connect st outcome newRoomId now).state.room.map Room.roomId = some newRoomId := by
    cases outcome <;> simp [connect, htok, hurl]
  refine ⟨hmapS, ?_, ?_⟩
  · intro hcontra
    rw [hcontra] at hmapS
    simp at hmapS
    exact hnew hmapS.symm
  · cases outcome <;> simp [connect, htok, hurl, isRoomDisconnect]

/-- Manager already holding a live handle, for the C9 witness. -/
def c9State : ManagerState :=
  { mkManager sampleSession with
    room := some { roomId := 1, state := RoomConnState.connected, canPlaybackAudio := true } }

/-- Witness for C9: a second successful connect on an already-connected
manager stores room 2 and never calls teardown on room 1. -/
theorem c9_reconnect_abandons_previous_room_witness :
    (connect c9State ConnectOutcome.success 2 "t").state.room.map Room.roomId = some 2 ∧
    (connect c9State ConnectOutcome.success 2 "t").state.room ≠
      some { roomId := 1, state := RoomConnState.connected, canPlaybackAudio := true } ∧
    (∀ c ∈ (connect c9State ConnectOutcome.success 2 "t").calls, isRoomDisconnect c = false) :=
  c9_reconnect_abandons_previous_room c9State
    { roomId := 1, state := RoomConnState.connected, canPlaybackAudio := true }
    ConnectOutcome.success 2 "t" rfl (by decide) (by decide) (by decide)

/-! ### Claim C10 -/

/-- Claim C10, confirmed: starting from a state with no handler list for
kind `k`, registering the same handler reference twice stores two
occurrences; an emit of kind `k` then invokes it exactly twice (once per
occurrence, same envelope); `off k h` removes exactly one (the first)
occurrence, so the next emit invokes it exactly once. -/
theorem c10_double_registration_single_removal (st : ManagerState) (k : String) (h : Handler)
    (d : EventPayload) (now now2 : String)
    (hnone : mapGet st.eventHandlers k = none) :
    mapGet ((st.on k h).on k h).eventHandlers k = some [h, h] ∧
    (emitEvent ((st.on k h).on k h) k d now).invoked =
      [{ hid := h.hid,
         arg := { type := k, session := st.session, timestamp := now, data := d },
         threw := h.throws },
       { hid := h.hid,
         arg := { type := k, session := st.session, timestamp := now, data := d },
         threw := h.throws }] ∧
    mapGet (((st.on k h).on k h).off k h).eventHandlers k = some [h] ∧
    (emitEvent (((st.on k h).on k h).off k h) k d now2).invoked =
      [{ hid := h.hid,
         arg := { type := k, session := st.session, timestamp := now2, data := d },
         threw := h.throws }] := by
  have h1 : mapGet (mapPush (mapPush st.eventHandlers k h) k h) k = some [h, h] := by
    simp [mapGet_mapPush_self, hnone]
  have h2 : mapGet (mapRemove (mapPush (mapPush st.eventHandlers k h) k h) k h) k = some [h] := by
    simp only [mapGet_mapRemove_self, h1]
    simp [removeFirst]
  refine ⟨?_, ?_, ?_, ?_⟩
  · simpa [ManagerState.on] using h1
  · simp [emitEvent, ManagerState.on, h1, runHandlers_eq_map]
  · simpa [ManagerState.on, ManagerState.off] using h2
  · simp [emitEvent, ManagerState.on, ManagerState.off, h2, runHandlers_eq_map]

/-- Witness for C10: kind `avatar.response`, handler reference 7, starting
from a freshly constructed manager. -/
theorem c10_double_registration_single_removal_witness :
    mapGet (((mkManager sampleSession).on AVATAR_EVENTS.RESPONSE { hid := 7, throws := false }).on
        AVATAR_EVENTS.RESPONSE { hid := 7, throws := false }).eventHandlers
        AVATAR_EVENTS.RESPONSE
      = some [{ hid := 7, throws := false }, { hid := 7, throws := false }] ∧
    (emitEvent (((mkManager sampleSession).on AVATAR_EVENTS.RESPONSE
          { hid := 7, throws := false }).on AVATAR_EVENTS.RESPONSE { hid := 7, throws := false })
        AVATAR_EVENTS.RESPONSE (EventPayload.responseMsg (some "Hello") 0) "t1").invoked =
      [{ hid := 7,
         arg := { type := AVATAR_EVENTS.RESPONSE, session := sampleSession, timestamp := "t1",
                  data := EventPayload.responseMsg (some "Hello") 0 },
         threw := false },
       { hid := 7,
         arg := { type := AVATAR_EVENTS.RESPONSE, session := sampleSession, timestamp := "t1",
                  data := EventPayload.responseMsg (some "Hello") 0 },
         threw := false }] ∧
    mapGet ((((mkManager sampleSession).on AVATAR_EVENTS.RESPONSE
          { hid := 7, throws := false }).on AVATAR_EVENTS.RESPONSE
          { hid := 7, throws := false }).off AVATAR_EVENTS.RESPONSE
          { hid := 7, throws := false }).eventHandlers AVATAR_EVENTS.RESPONSE
      = some [{ hid := 7, throws := false }] ∧
    (emitEvent ((((mkManager sampleSession).on AVATAR_EVENTS.RESPONSE
          { hid := 7, throws := false }).on AVATAR_EVENTS.RESPONSE
          { hid := 7, throws := false }).off AVATAR_EVENTS.RESPONSE
          { hid := 7, throws := false })
        AVATAR_EVENTS.RESPONSE (EventPayload.responseMsg (some "Hello") 0) "t2").invoked =
      [{ hid := 7,
         arg := { type := AVATAR_EVENTS.RESPONSE, session := sampleSession, timestamp := "t2",
                  data := EventPayload.responseMsg (some "Hello") 0 },
         threw := false }] :=
  c10_double_registration_single_removal (mkManager sampleSession) AVATAR_EVENTS.RESPONSE
    { hid := 7, throws := false } (EventPayload.responseMsg (some "Hello") 0) "t1" "t2" rfl

end TangentSdk
